import Mathlib

/-!
Shallow embedding of the aircargo-transformer repository.

The main pipeline lives in `src/in/transform.py` (`classify_cargo`,
`transform_data`); a second variant lives in `src/transform.py`
(`FlightDataTransformer.classify_awb`).  All Python string operations used by
the code (substring containment via `in`, `startswith`, `upper`, `lower`,
`strip`) are modelled character-exactly on `List Char`; floats are modelled as
exact rationals, and nullable cells (`NaN`) as `Option`.
-/

set_option maxRecDepth 4000
set_option maxHeartbeats 1600000

namespace AirCargo

/-- Python `p.startswith(q)` on the underlying character lists:
`listStarts q s` is true when `q` is an initial segment of `s`. -/
def listStarts : List Char → List Char → Bool
  | [], _ => true
  | _ :: _, [] => false
  | p :: ps, c :: cs => p == c && listStarts ps cs

/-- Python `q in s` (substring containment) on character lists. -/
def listSub (p : List Char) : List Char → Bool
  | [] => listStarts p []
  | c :: cs => listStarts p (c :: cs) || listSub p cs

/-- Python `s.startswith(p)`. -/
def strStarts (s p : String) : Bool := listStarts p.data s.data

/-- Python `p in s`: `p` occurs as a contiguous substring of `s`. -/
def strContains (s p : String) : Bool := listSub p.data s.data

/-- Python `s.upper()` (ASCII). -/
def strUpper (s : String) : String := String.mk (s.data.map Char.toUpper)

/-- Python `s.lower()` (ASCII). -/
def strLower (s : String) : String := String.mk (s.data.map Char.toLower)

/-- Python `s.strip()`: remove leading and trailing whitespace. -/
def strTrim (s : String) : String :=
  String.mk (((s.data.dropWhile Char.isWhitespace).reverse.dropWhile
    Char.isWhitespace).reverse)

/-- `str(x) if pd.notna(x) else ''`: missing cells become the empty string. -/
def optStr (o : Option String) : String := o.getD ""

/-- Pandas `.astype(str)` on a cell: a missing value (`NaN`) prints as "nan". -/
def pdStr (o : Option String) : String := o.getD "nan"

/-- One input row as handed to `classify_cargo` after column mapping
(`src/in/transform.py`).  Every field is nullable; weights are exact
rationals standing for Python floats. -/
structure Record where
  flightDate : Option String
  carrier : Option String
  flightNo : Option String
  origin : Option String
  dest : Option String
  awb : Option String
  pieces : Option Int
  weight : Option ℚ
  uld : Option String
  importStatus : Option String
  awbDest : Option String
  natureGoods : Option String
  shcs : Option String
deriving DecidableEq, Repr

/-- A record with every field missing; concrete records are built from it. -/
def blank : Record :=
  ⟨none, none, none, none, none, none, none, none, none, none, none, none, none⟩

/-- The six cargo categories returned by `classify_cargo`
('GENCARGO', 'PER/COL', 'DG', 'TRANSIT', 'P.O MAIL', 'COURIER'). -/
inductive Category where
  | TRANSIT
  | POMAIL
  | COURIER
  | PERCOL
  | DG
  | GENCARGO
deriving DecidableEq, Repr

/-- One entry appended to `transit_conflict_log` (the audit-relevant fields). -/
structure TransitConflictEntry where
  awb : String
  hasCkdFlag : Bool
  destNotDarFlag : Bool
  weight : ℚ
deriving DecidableEq, Repr

/-- One entry appended to `unclassified_log` (the audit-relevant fields). -/
structure UnclassifiedEntry where
  awb : String
  natureGoods : Option String
  shcsField : Option String
deriving DecidableEq, Repr

/-- The observable outcome of one `classify_cargo` call: the returned
`(category, weight)` pair plus the diagnostic entries appended by the call. -/
structure ClassifyResult where
  category : Option Category
  weight : ℚ
  transitConflicts : List TransitConflictEntry
  unclassified : List UnclassifiedEntry
deriving DecidableEq, Repr

/-- `nature_goods = str(...).lower() if notna else ''`. -/
def normNature (r : Record) : String := strLower (optStr r.natureGoods)

/-- `shcs = str(...).upper() if notna else ''`. -/
def normShcs (r : Record) : String := strUpper (optStr r.shcs)

/-- `weight = float(...) if notna else 0` (the parseable case). -/
def normWeight (r : Record) : ℚ := r.weight.getD 0

/-- `awb = str(...) if notna else ''` — note: not upper-cased. -/
def normAwb (r : Record) : String := optStr r.awb

/-- `import_status = str(...).upper() if notna else ''`. -/
def normImportStatus (r : Record) : String := strUpper (optStr r.importStatus)

/-- `awb_dest = str(...).upper().strip() if notna else ''`. -/
def normAwbDest (r : Record) : String := strTrim (strUpper (optStr r.awbDest))

/-- `has_ckd = 'CKD' in import_status`. -/
def hasCkd (r : Record) : Bool := strContains (normImportStatus r) "CKD"

/-- `dest_not_dar = awb_dest != 'DAR' and awb_dest != ''`. -/
def destNotDar (r : Record) : Bool :=
  !(normAwbDest r == "DAR") && !(normAwbDest r == "")

/-- `awb.startswith('MAL')` — a case-sensitive test on the raw AWB string. -/
def malStart (r : Record) : Bool := strStarts (normAwb r) "MAL"

/-- `'COU' in shcs or 'courier' in nature_goods`. -/
def courierMatch (r : Record) : Bool :=
  strContains (normShcs r) "COU" || strContains (normNature r) "courier"

/-- The perishable SHC code list from `classify_cargo`. -/
def perishShcs : List String :=
  ["COL", "FRO", "CRT", "ICE", "ERT", "PER", "PEF", "PES", "PEM"]

/-- The perishable description keyword list from `classify_cargo`. -/
def perishTerms : List String :=
  ["perishable", "fresh", "chilled", "frozen", "cool", "cold",
   "flower", "fish", "meat", "vegetable", "fruit", "avocado"]

/-- The dangerous-goods SHC code list from `classify_cargo`. -/
def dgShcs : List String :=
  ["DGR", "RRY", "RMD", "RPB", "RFL", "RCG", "RNG", "RIS", "RDS"]

/-- The general-cargo SHC code list from `classify_cargo`. -/
def genShcs : List String := ["GEN", "GCR"]

/-- Placeholder description terms that suppress the unclassified diagnostic. -/
def genPlaceholders : List String := ["general cargo", "cargo", "general", "gen", ""]

/-- `any(term in shcs for term in [perishable codes])`. -/
def perishShcMatch (r : Record) : Bool :=
  perishShcs.any (fun t => strContains (normShcs r) t)

/-- `any(term in nature_goods for term in perishable_terms)`. -/
def perishTermMatch (r : Record) : Bool :=
  perishTerms.any (fun t => strContains (normNature r) t)

/-- `any(term in shcs for term in [DG codes])`. -/
def dgShcMatch (r : Record) : Bool :=
  dgShcs.any (fun t => strContains (normShcs r) t)

/-- `'dangerous' in nature_goods`. -/
def dgTermMatch (r : Record) : Bool := strContains (normNature r) "dangerous"

/-- `any(term in shcs for term in ['GEN', 'GCR'])`. -/
def genShcMatch (r : Record) : Bool :=
  genShcs.any (fun t => strContains (normShcs r) t)

/-- `classify_cargo` from `src/in/transform.py`, lines 7-104, translated
branch for branch.  The two mutable log lists become the lists of entries
appended by the call. -/
def classify_cargo (r : Record) : ClassifyResult :=
  if normWeight r = 0 then ⟨none, 0, [], []⟩
  else if hasCkd r && destNotDar r then ⟨some .TRANSIT, normWeight r, [], []⟩
  else
    let tc : List TransitConflictEntry :=
      if hasCkd r || destNotDar r then
        [⟨normAwb r, hasCkd r, destNotDar r, normWeight r⟩]
      else []
    if malStart r then ⟨some .POMAIL, normWeight r, tc, []⟩
    else if courierMatch r then ⟨some .COURIER, normWeight r, tc, []⟩
    else if perishShcMatch r then ⟨some .PERCOL, normWeight r, tc, []⟩
    else if perishTermMatch r then ⟨some .PERCOL, normWeight r, tc, []⟩
    else if dgShcMatch r then ⟨some .DG, normWeight r, tc, []⟩
    else if dgTermMatch r then ⟨some .DG, normWeight r, tc, []⟩
    else if genShcMatch r then ⟨some .GENCARGO, normWeight r, tc, []⟩
    else
      ⟨some .GENCARGO, normWeight r, tc,
        if normNature r ≠ "" ∧ normNature r ∉ genPlaceholders then
          [⟨normAwb r, r.natureGoods, r.shcs⟩]
        else []⟩

/-- The classification chain below the transit rule (rules 2-6 of the code):
what `classify_cargo` returns once the transit test has failed. -/
def postTransitChain (r : Record) : Category :=
  if malStart r then .POMAIL
  else if courierMatch r then .COURIER
  else if perishShcMatch r then .PERCOL
  else if perishTermMatch r then .PERCOL
  else if dgShcMatch r then .DG
  else if dgTermMatch r then .DG
  else .GENCARGO

/-- The matching condition of each rule of the priority chain, read off the
branch conditions of `classify_cargo`.  The default rule always matches. -/
def ruleMatch (r : Record) : Category → Bool
  | .TRANSIT => hasCkd r && destNotDar r
  | .POMAIL => malStart r
  | .COURIER => courierMatch r
  | .PERCOL => perishShcMatch r || perishTermMatch r
  | .DG => dgShcMatch r || dgTermMatch r
  | .GENCARGO => true

/-- The priority order of the chain, highest first. -/
def priorityChain : List Category :=
  [.TRANSIT, .POMAIL, .COURIER, .PERCOL, .DG, .GENCARGO]

/-- First rule in the given order whose condition matches the record. -/
def firstMatching (r : Record) : List Category → Option Category
  | [] => none
  | c :: cs => if ruleMatch r c then some c else firstMatching r cs

/-- The strict duplicate key of `transform_data` STEP 3:
(Flight date, Flight No., AWB, Pieces, Weight, stripped ULD Number,
Nature Goods cleaned, SHCs cleaned). -/
structure DupKey where
  flightDate : Option String
  flightNo : Option String
  awb : Option String
  pieces : Option Int
  weight : Option ℚ
  uldClean : String
  natureClean : String
  shcsClean : String
deriving DecidableEq, Repr

/-- The duplicate key of a record: ULD via `astype(str).str.strip()`,
Nature Goods via `astype(str).str.strip().str.lower()`,
SHCs via `astype(str).str.strip().str.upper()`. -/
def dupKey (r : Record) : DupKey :=
  ⟨r.flightDate, r.flightNo, r.awb, r.pieces, r.weight,
   strTrim (pdStr r.uld),
   strLower (strTrim (pdStr r.natureGoods)),
   strUpper (strTrim (pdStr r.shcs))⟩

/-- Worker for `drop_duplicates(keep='first')`: keep a record iff its
duplicate key has not been seen earlier in the traversal. -/
def dedupGo (seen : List DupKey) : List Record → List Record
  | [] => []
  | r :: rs =>
    if dupKey r ∈ seen then dedupGo seen rs
    else r :: dedupGo (dupKey r :: seen) rs

/-- `df.drop_duplicates(subset=duplicate_check_cols, keep='first')`. -/
def dedupRecords (rs : List Record) : List Record := dedupGo [] rs

/-- `excluded_statuses = ['MIS', 'ACC', 'NOT']`. -/
def excludedStatuses : List String := ["MIS", "ACC", "NOT"]

/-- `Import Status Clean = astype(str).str.upper().str.strip()`. -/
def importStatusClean (r : Record) : String :=
  strTrim (strUpper (pdStr r.importStatus))

/-- STEP 1 keep-condition: the cleaned import status is not one of the
excluded statuses (exact equality after upper+strip, not containment). -/
def statusKeep (r : Record) : Bool :=
  !(excludedStatuses.contains (importStatusClean r))

/-- STEP 2 keep-condition, `df[df['Weight'] != 0]`; a missing weight (`NaN`)
compares unequal to 0 in pandas and is kept. -/
def weightKeep (r : Record) : Bool :=
  match r.weight with
  | some w => if w = 0 then false else true
  | none => true

/-- The record sequence surviving `transform_data` STEPs 1-3, in order:
status filter, then zero-weight filter, then deduplication. -/
def transformKept (rs : List Record) : List Record :=
  dedupRecords (List.filter weightKeep (List.filter statusKeep rs))

/-- The per-flight accumulators of `transform_data`'s grouping loop:
one weight accumulator and one distinct-AWB list per category
(Python `unique_awbs_by_category` sets become duplicate-free lists). -/
structure AggState where
  w : Category → ℚ
  s : Category → List String

/-- All accumulators zero / empty. -/
def emptyState : AggState := ⟨fun _ => 0, fun _ => []⟩

/-- The body of `for _, awb_row in group.iterrows()` (lines 340-354):
classify, skip `None`, add the weight to the category's accumulator, and
record the AWB string in the category's set when it is non-empty. -/
def stepRecord (st : AggState) (r : Record) : AggState :=
  match (classify_cargo r).category with
  | none => st
  | some c =>
    let w' : Category → ℚ :=
      fun c' => if c' = c then st.w c' + (classify_cargo r).weight else st.w c'
    let s' : Category → List String :=
      if normAwb r = "" then st.s
      else fun c' => if c' = c then (st.s c').insert (normAwb r) else st.s c'
    ⟨w', s'⟩

/-- Accumulators after processing one flight group in input order. -/
def aggregateState (g : List Record) : AggState := g.foldl stepRecord emptyState

/-- `all_unique_awbs`: the union of the five non-mail category AWB sets
(P.O MAIL deliberately excluded, lines 370-373). -/
def unionNonMail (st : AggState) : List String :=
  ((((st.s .GENCARGO) ∪ (st.s .PERCOL)) ∪ (st.s .DG)) ∪ (st.s .TRANSIT)) ∪
    (st.s .COURIER)

/-- One output row of Book2 for one flight group: the six weight columns,
the five non-mail AWB-count columns, `AWB TOTAL` and `TOTAL WEIGHT`. -/
structure AggRow where
  wGen : ℚ
  wPer : ℚ
  wDg : ℚ
  wTr : ℚ
  wMail : ℚ
  wCou : ℚ
  genCount : ℕ
  colCount : ℕ
  dgCount : ℕ
  tnstCount : ℕ
  couCount : ℕ
  awbTotal : ℕ
  totalWeight : ℚ
deriving DecidableEq, Repr

/-- The aggregate row built from one flight group (lines 306-378):
counts are the sizes of the per-category distinct-AWB sets, `AWB TOTAL` is
the size of the non-mail union, and `TOTAL WEIGHT` is the sum of the six
weight columns. -/
def aggregateGroup (g : List Record) : AggRow :=
  let st := aggregateState g
  ⟨st.w .GENCARGO, st.w .PERCOL, st.w .DG, st.w .TRANSIT, st.w .POMAIL,
   st.w .COURIER,
   (st.s .GENCARGO).length, (st.s .PERCOL).length, (st.s .DG).length,
   (st.s .TRANSIT).length, (st.s .COURIER).length,
   (unionNonMail st).length,
   st.w .GENCARGO + st.w .PERCOL + st.w .DG + st.w .TRANSIT + st.w .POMAIL +
     st.w .COURIER⟩

/-- Sum of the six per-category weight accumulators of a state. -/
def sumStW (st : AggState) : ℚ :=
  st.w .GENCARGO + st.w .PERCOL + st.w .DG + st.w .TRANSIT + st.w .POMAIL +
    st.w .COURIER

/-- `clean_text` from `src/transform.py`: lower-case then strip; missing
becomes the empty string. -/
def clean_text (t : Option String) : String := strTrim (strLower (optStr t))

/-- The ordered keyword table `category_keywords` of `FlightDataTransformer`. -/
def category_keywords : List (String × List String) :=
  [("MEAT", ["meat", "nyama", "goat meat", "beef", "pork", "chicken", "mutton",
             "lamb", "fresh chilled meat", "frozen meat", "pem", "poultry"]),
   ("FISH", ["fish", "samaki", "salmon", "tuna", "tilapia", "fresh fish",
             "frozen fish", "seafood", "sardines"]),
   ("AVOCADO", ["avocado", "parachichi", "avocados", "fresh avocado"]),
   ("VEGETABLES", ["vegetables", "mboga", "tomatoes", "onions", "carrots",
                   "cabbage", "fresh vegetables", "green beans", "peas",
                   "potatoes", "leafy vegetables"]),
   ("FLOWERS", ["flowers", "maua", "roses", "chrysanthemums", "carnations",
                "fresh flowers", "cut flowers", "floral"]),
   ("COURIER", ["courier", "express", "ems", "dhl", "fedex", "ups", "tnt",
                "documents", "express mail"]),
   ("P.O.MAIL", ["mail", "posta", "post", "postal", "letters",
                 "registered mail", "parcel post", "airmail"]),
   ("VALUABLES", ["valuables", "gold", "jewelry", "diamonds", "precious",
                  "val", "valuable cargo", "gems", "bullion"]),
   ("PER/COL", ["perishable", "per", "col", "perishables", "cold storage",
                "temperature controlled", "chilled"]),
   ("DG", ["dangerous goods", "dg", "hazardous", "dangerous", "toxic",
           "flammable", "corrosive", "radioactive"]),
   ("CRABS/LOBSTER", ["crab", "lobster", "crabs", "lobsters", "shellfish",
                      "kaa", "fresh crabs", "live crabs", "live lobster"])]

/-- First category in table order one of whose keywords occurs in the text
(the nested `for` loops of `classify_awb`). -/
def firstKeyword : List (String × List String) → String → Option String
  | [], _ => none
  | (cat, kws) :: rest, text =>
    if kws.any (fun k => strContains text k) then some cat
    else firstKeyword rest text

/-- `FlightDataTransformer.classify_awb` from `src/transform.py`,
lines 66-100, translated branch for branch. -/
def classify_awb (awb natureGoods shcs : Option String) : String :=
  if awb.isSome && strStarts (strUpper (optStr awb)) "MAL" then "P.O.MAIL"
  else
    let combined := clean_text natureGoods ++ " " ++ clean_text shcs
    if strTrim combined = "" then
      let u := strUpper (optStr awb)
      if strContains u "VAL" || strContains u "DG" || strContains u "PER" then
        if strContains u "VAL" then "VALUABLES"
        else if strContains u "DG" then "DG"
        else "PER/COL"
      else "G. CARGO"
    else
      match firstKeyword category_keywords combined with
      | some c => c
      | none => "G. CARGO"

/-- Value of an all-digit character list read as a decimal number. -/
def digitsToNat (l : List Char) : ℕ :=
  l.foldl (fun a c => a * 10 + (c.toNat - 48)) 0

/-- Python `float(s)` restricted to the plain decimal literals relevant here
(optional sign, digits, optional fractional part); `none` models the
`ValueError` raised on any other string, such as "abc". -/
def pyFloat (s : String) : Option ℚ :=
  let t := (strTrim s).data
  let signed : ℚ × List Char :=
    match t with
    | '-' :: rest => (-1, rest)
    | '+' :: rest => (1, rest)
    | l => (1, l)
  let ip := signed.2.takeWhile Char.isDigit
  let rest := signed.2.dropWhile Char.isDigit
  match rest with
  | [] => if ip.isEmpty then none else some (signed.1 * digitsToNat ip)
  | '.' :: frac =>
    if frac.all Char.isDigit && !(ip.isEmpty && frac.isEmpty) then
      some (signed.1 *
        ((digitsToNat ip : ℚ) + (digitsToNat frac : ℚ) / (10 ^ frac.length)))
    else none
  | _ => none

/-- The weight normalization inside `classify_cargo`
(`float(row['Weight']) if pd.notna(row['Weight']) else 0`) applied to a raw
string-valued weight cell: `none` models the uncaught `ValueError` that
`float(...)` raises on a non-numeric string. -/
def normWeightRawIn (w : Option String) : Option ℚ :=
  match w with
  | none => some 0
  | some s => pyFloat s

/-- The weight normalization of `FlightDataTransformer.transform_data`
(`pd.to_numeric(errors='coerce').fillna(0)`): every malformed or missing
value coerces to 0, never failing. -/
def finalWeightSafe (w : Option String) : ℚ := (w.bind pyFloat).getD 0

/-- Spec example record for the priority chain: status CKD, destination NBO,
AWB MAL12345, SHC "MAL COU". -/
def exC1 : Record :=
  { blank with awb := some "MAL12345", shcs := some "MAL COU",
               importStatus := some "CKD", awbDest := some "NBO",
               weight := some 10 }

/-- Transit-conflict example record: status CKD but destination DAR. -/
def exC3 : Record :=
  { blank with awb := some "900", importStatus := some "CKD",
               awbDest := some "DAR", weight := some 1, shcs := some "PER" }

/-- Line item with AWB 800 and SHC COU. -/
def r41 : Record := { blank with awb := some "800", weight := some 1, shcs := some "COU" }

/-- Line item with AWB 800 and SHC GEN. -/
def r42 : Record := { blank with awb := some "800", weight := some 1, shcs := some "GEN" }

/-- A flight group whose single AWB 800 has line-items resolving to COURIER
and to GENCARGO. -/
def gEx4 : List Record := [r41, r42]

/-- Line item with AWB 700 and SHC COU. -/
def r51 : Record := { blank with awb := some "700", weight := some 1, shcs := some "COU" }

/-- Line item with AWB 700 and SHC PER. -/
def r52 : Record := { blank with awb := some "700", weight := some 2, shcs := some "PER" }

/-- A flight group whose single AWB 700 has line-items resolving to COURIER
and to PER/COL. -/
def gEx5 : List Record := [r51, r52]

/-- Record whose AWB starts with lower-case "mal" and whose SHC is PER. -/
def exC7 : Record :=
  { blank with awb := some "mal12345", weight := some 1, shcs := some "PER" }

/-- Record with upper-case MAL AWB prefix and competing SHC signals. -/
def exMal : Record :=
  { blank with awb := some "MAL77", weight := some 1, shcs := some "COU PER" }

/-- Record whose SHC string "SCOUT" contains COU only inside a longer token
and whose description carries no courier signal. -/
def exC8 : Record :=
  { blank with awb := some "888", weight := some 5, shcs := some "scout" }

/-- Record with a discrete COU SHC token next to a perishable code. -/
def exC8w : Record :=
  { blank with awb := some "889", weight := some 3, shcs := some "COU PER" }

/-- On non-zero weight, the returned weight is the normalized weight. -/
lemma classify_weight_eq (r : Record) (h : normWeight r ≠ 0) :
    (classify_cargo r).weight = normWeight r := by
  unfold classify_cargo
  simp only [h, if_false]
  split_ifs <;> rfl

/-- On non-zero weight, the category is TRANSIT when both transit
sub-conditions hold, and otherwise the outcome of the remaining chain. -/
lemma classify_category_eq (r : Record) (h : normWeight r ≠ 0) :
    (classify_cargo r).category =
      if hasCkd r && destNotDar r then some Category.TRANSIT
      else some (postTransitChain r) := by
  unfold classify_cargo postTransitChain
  simp only [h, if_false]
  split_ifs <;> rfl

/-- `classify_cargo` returns no category exactly on zero normalized weight. -/
lemma classify_category_none_iff (r : Record) :
    (classify_cargo r).category = none ↔ normWeight r = 0 := by
  by_cases h : normWeight r = 0
  · simp only [h, iff_true]
    unfold classify_cargo
    simp only [h, if_true]
  · rw [classify_category_eq r h]
    simp only [h, iff_false]
    split_ifs <;> simp

/-- On non-zero weight and a failed transit test, the conflict log entries of
the call are the singleton entry when one sub-condition holds, else empty. -/
lemma classify_tc_eq (r : Record) (h : normWeight r ≠ 0)
    (h2 : (hasCkd r && destNotDar r) = false) :
    (classify_cargo r).transitConflicts =
      if hasCkd r || destNotDar r then
        [⟨normAwb r, hasCkd r, destNotDar r, normWeight r⟩]
      else [] := by
  unfold classify_cargo
  simp only [h, if_false, h2, Bool.false_eq_true]
  split_ifs <;> rfl

/-- When both transit sub-conditions hold, no conflict entry is produced. -/
lemma classify_tc_transit (r : Record)
    (h2 : (hasCkd r && destNotDar r) = true) :
    (classify_cargo r).transitConflicts = [] := by
  unfold classify_cargo
  by_cases h : normWeight r = 0 <;> simp [h, h2]

/-- Claim C1: for every normalized record with non-zero weight,
`classify_cargo` evaluates the priority chain TRANSIT, POSTAL_MAIL, COURIER,
PERISHABLE_COLD, DANGEROUS_GOODS, GENERAL_CARGO top-down and returns the
first matching rule's category; in particular a transit record is TRANSIT
whatever its AWB prefix and SHC, a MAL-prefixed record without transit
signals is POSTAL_MAIL, a record matching both the courier signal and a
perishable code is COURIER, and a record with SHC "PER" only is
PERISHABLE_COLD. -/
theorem c1_priority_chain (r : Record) (h : normWeight r ≠ 0) :
    (classify_cargo r).category = firstMatching r priorityChain ∧
    (hasCkd r = true → destNotDar r = true →
      (classify_cargo r).category = some Category.TRANSIT) ∧
    ((hasCkd r || destNotDar r) = false → malStart r = true →
      (classify_cargo r).category = some Category.POMAIL) ∧
    ((hasCkd r && destNotDar r) = false → malStart r = false →
      strContains (normShcs r) "COU" = true →
      (classify_cargo r).category = some Category.COURIER) ∧
    ((hasCkd r && destNotDar r) = false → malStart r = false →
      strContains (normNature r) "courier" = false → normShcs r = "PER" →
      (classify_cargo r).category = some Category.PERCOL) := by
  have hc := classify_category_eq r h
  refine ⟨?_, ?_, ?_, ?_, ?_⟩
  · rw [hc]
    unfold postTransitChain firstMatching priorityChain
    simp only [ruleMatch]
    split_ifs <;> simp_all [firstMatching, ruleMatch]
  · intro h1 h2
    rw [hc]
    simp [h1, h2]
  · intro h1 h2
    have hA : hasCkd r = false := by
      cases hh : hasCkd r <;> simp_all
    have hB : destNotDar r = false := by
      cases hh : destNotDar r <;> simp_all
    rw [hc]
    unfold postTransitChain
    simp [hA, hB, h2]
  · intro h1 h2 h3
    rw [hc]
    unfold postTransitChain
    simp [h1, h2, courierMatch, h3]
  · intro h1 h2 h3 h4
    rw [hc]
    unfold postTransitChain
    have hcou : courierMatch r = false := by
      simp [courierMatch, h3, h4]
      decide
    have hper : perishShcMatch r = true := by
      simp [perishShcMatch, h4]
      decide
    simp [h1, h2, hcou, hper]

/-- Witness for C1 at the spec's own example (CKD, NBO, AWB MAL12345,
SHC "MAL COU"): the record has non-zero weight and is classified TRANSIT. -/
theorem c1_priority_chain_witness :
    normWeight exC1 ≠ 0 ∧
    ((classify_cargo exC1).category = firstMatching exC1 priorityChain ∧
     (hasCkd exC1 = true → destNotDar exC1 = true →
       (classify_cargo exC1).category = some Category.TRANSIT) ∧
     ((hasCkd exC1 || destNotDar exC1) = false → malStart exC1 = true →
       (classify_cargo exC1).category = some Category.POMAIL) ∧
     ((hasCkd exC1 && destNotDar exC1) = false → malStart exC1 = false →
       strContains (normShcs exC1) "COU" = true →
       (classify_cargo exC1).category = some Category.COURIER) ∧
     ((hasCkd exC1 && destNotDar exC1) = false → malStart exC1 = false →
       strContains (normNature exC1) "courier" = false →
       normShcs exC1 = "PER" →
       (classify_cargo exC1).category = some Category.PERCOL)) :=
  ⟨by decide, c1_priority_chain exC1 (by decide)⟩

/-- Claim C3: on a classified (non-zero-weight) record, when exactly one of
the two transit sub-conditions holds the call appends exactly one
TransitConflict entry carrying both truth values, does not return TRANSIT,
and classifies the record by the remaining chain; when both or neither
sub-condition holds, no conflict entry is appended. -/
theorem c3_transit_conflict (r : Record) (h : normWeight r ≠ 0) :
    (hasCkd r ≠ destNotDar r →
      (classify_cargo r).transitConflicts =
        [⟨normAwb r, hasCkd r, destNotDar r, normWeight r⟩] ∧
      (classify_cargo r).category ≠ some Category.TRANSIT ∧
      (classify_cargo r).category = some (postTransitChain r)) ∧
    (hasCkd r = destNotDar r →
      (classify_cargo r).transitConflicts = []) := by
  constructor
  · intro hne
    have h2 : (hasCkd r && destNotDar r) = false := by
      cases ha : hasCkd r <;> cases hb : destNotDar r <;> simp_all
    have hor : (hasCkd r || destNotDar r) = true := by
      cases ha : hasCkd r <;> cases hb : destNotDar r <;> simp_all
    refine ⟨?_, ?_, ?_⟩
    · rw [classify_tc_eq r h h2, hor]
      simp
    · rw [classify_category_eq r h]
      simp only [h2, Bool.false_eq_true, if_false]
      unfold postTransitChain
      split_ifs <;> simp
    · rw [classify_category_eq r h]
      simp [h2]
  · intro heq
    cases ha : hasCkd r <;> cases hb : destNotDar r <;> rw [ha, hb] at heq
    · have h2 : (hasCkd r && destNotDar r) = false := by simp [ha, hb]
      rw [classify_tc_eq r h h2]
      simp [ha, hb]
    · exact absurd heq (by simp)
    · exact absurd heq (by simp)
    · exact classify_tc_transit r (by simp [ha, hb])

/-- Witness for C3 at a record with status CKD and destination DAR: one
conflict entry with truth values (true, false), category not TRANSIT. -/
theorem c3_transit_conflict_witness :
    (classify_cargo exC3).transitConflicts =
      [⟨normAwb exC3, hasCkd exC3, destNotDar exC3, normWeight exC3⟩] ∧
    (classify_cargo exC3).category ≠ some Category.TRANSIT ∧
    (classify_cargo exC3).category = some (postTransitChain exC3) :=
  (c3_transit_conflict exC3 (by decide)).1 (by decide)

/-- Counterexample to claim C7: the record with AWB "mal12345", weight 1,
SHC "PER" and no transit signal is classified PERISHABLE_COLD, not
POSTAL_MAIL — `classify_cargo`'s prefix test `awb.startswith('MAL')` is
case-sensitive. -/
theorem c7_counterexample_case :
    (classify_cargo exC7).category ≠ some Category.POMAIL ∧
    (classify_cargo exC7).category = some Category.PERCOL := by
  constructor <;> decide

/-- Claim C7 as amended: in `classify_cargo` the mail rule tests the raw AWB
string case-sensitively for the prefix "MAL" and, once the transit test has
failed, overrides all SHC and description signals; in
`FlightDataTransformer.classify_awb` the same prefix test is performed
case-insensitively (on the upper-cased AWB) and precedes every other
signal. -/
theorem c7_amended_mail_rule :
    (∀ r : Record, normWeight r ≠ 0 → (hasCkd r && destNotDar r) = false →
      malStart r = true → (classify_cargo r).category = some Category.POMAIL) ∧
    (∀ a : String, ∀ n s : Option String, strStarts (strUpper a) "MAL" = true →
      classify_awb (some a) n s = "P.O.MAIL") := by
  constructor
  · intro r h h2 hm
    rw [classify_category_eq r h]
    simp only [h2, Bool.false_eq_true, if_false]
    unfold postTransitChain
    simp [hm]
  · intro a n s hm
    unfold classify_awb
    simp [optStr, hm]

/-- Witness for the amended C7: AWB "MAL77" with SHC "COU PER" is
POSTAL_MAIL in `classify_cargo`; AWB "mal12345" is P.O.MAIL in
`classify_awb`. -/
theorem c7_amended_mail_rule_witness :
    (classify_cargo exMal).category = some Category.POMAIL ∧
    classify_awb (some "mal12345") none none = "P.O.MAIL" :=
  ⟨c7_amended_mail_rule.1 exMal (by decide) (by decide) (by decide),
   c7_amended_mail_rule.2 "mal12345" none none (by decide)⟩

/-- Counterexample to claim C8: the record with SHC "scout" (upper-cased
"SCOUT", which contains COU only inside a longer token) and no courier
description is classified COURIER — the code's test `'COU' in shcs` is a
substring test, not a token-set membership test. -/
theorem c8_counterexample_token :
    (classify_cargo exC8).category = some Category.COURIER ∧
    strContains (normNature exC8) "courier" = false := by
  constructor <;> decide

/-- Claim C8 as amended: once the transit and mail rules have failed, a
non-zero-weight record is classified COURIER exactly when the upper-cased
SHC string contains "COU" as a substring (so a longer token such as SCOUT
also triggers the rule) or the lower-cased description contains
"courier". -/
theorem c8_amended_substring (r : Record) (h : normWeight r ≠ 0)
    (h2 : (hasCkd r && destNotDar r) = false) (hm : malStart r = false) :
    (classify_cargo r).category = some Category.COURIER ↔
      (strContains (normShcs r) "COU" || strContains (normNature r) "courier")
        = true := by
  rw [classify_category_eq r h]
  simp only [h2, Bool.false_eq_true, if_false]
  unfold postTransitChain
  rw [show (strContains (normShcs r) "COU" ||
        strContains (normNature r) "courier") = courierMatch r from rfl]
  simp only [hm, Bool.false_eq_true, if_false]
  split_ifs with hcou <;> simp [hcou]

/-- Witness for the amended C8 at the record with SHC "COU PER": the rule
fires on the discrete COU code. -/
theorem c8_amended_substring_witness :
    (classify_cargo exC8w).category = some Category.COURIER :=
  (c8_amended_substring exC8w (by decide) (by decide) (by decide)).mpr
    (by decide)

/-- The deduplication worker returns a subsequence of its input. -/
lemma dedupGo_sublist :
    ∀ (l : List Record) (seen : List DupKey), (dedupGo seen l).Sublist l := by
  intro l
  induction l with
  | nil => intro seen; simp [dedupGo]
  | cons a l ih =>
    intro seen
    by_cases hk : dupKey a ∈ seen
    · simp only [dedupGo, if_pos hk]
      exact (ih seen).cons a
    · simp only [dedupGo, if_neg hk]
      exact (ih (dupKey a :: seen)).cons₂ a

/-- Claim C10: before deduplication and aggregation the pipeline removes
exactly the records whose import status, upper-cased and trimmed
(with a missing status printing as "nan"), equals one of MIS, ACC, NOT;
a status merely containing such a token among others is not removed by the
status filter, and every record surviving to deduplication passes it. -/
theorem c10_status_filter (rs : List Record) :
    transformKept rs =
      dedupRecords (List.filter weightKeep (List.filter statusKeep rs)) ∧
    (∀ r : Record, statusKeep r = false ↔
      importStatusClean r ∈ excludedStatuses) ∧
    (transformKept rs).all statusKeep = true := by
  refine ⟨rfl, ?_, ?_⟩
  · intro r
    simp [statusKeep]
  · rw [List.all_eq_true]
    intro r hr
    have h1 : r ∈ List.filter weightKeep (List.filter statusKeep rs) :=
      (dedupGo_sublist _ []).subset hr
    exact (List.mem_filter.mp (List.mem_filter.mp h1).1).2

/-- One aggregation step adds the record's normalized weight (zero-weight
records add nothing) to the total of the six weight accumulators. -/
lemma sumStW_step (st : AggState) (r : Record) :
    sumStW (stepRecord st r) =
      sumStW st + (if normWeight r = 0 then 0 else normWeight r) := by
  by_cases h : normWeight r = 0
  · have hc : (classify_cargo r).category = none :=
      (classify_category_none_iff r).mpr h
    simp [stepRecord, hc, h]
  · obtain ⟨c, hc⟩ : ∃ c, (classify_cargo r).category = some c := by
      cases hcc : (classify_cargo r).category
      · exact absurd ((classify_category_none_iff r).mp hcc) h
      · exact ⟨_, rfl⟩
    simp only [stepRecord, hc]
    cases c <;>
      simp [sumStW, h, classify_weight_eq r h] <;> ring

/-- Folding a group into the accumulators adds exactly the sum of the
normalized weights of its non-zero-weight records. -/
lemma sumStW_foldl :
    ∀ (g : List Record) (st : AggState),
      sumStW (g.foldl stepRecord st) =
        sumStW st +
          ((g.filter (fun r => decide (normWeight r ≠ 0))).map normWeight).sum := by
  intro g
  induction g with
  | nil => intro st; simp
  | cons r g ih =>
    intro st
    simp only [List.foldl_cons]
    rw [ih, sumStW_step]
    by_cases h : normWeight r = 0
    · simp [h, List.filter_cons]
    · simp [h, List.filter_cons]
      ring

/-- Membership in a category's AWB set after one aggregation step. -/
lemma mem_s_step (st : AggState) (r : Record) (c : Category) (a : String) :
    a ∈ (stepRecord st r).s c ↔
      a ∈ st.s c ∨
        ((classify_cargo r).category = some c ∧ a = normAwb r ∧
          normAwb r ≠ "") := by
  cases hc : (classify_cargo r).category with
  | none => simp [stepRecord, hc]
  | some c0 =>
    simp only [stepRecord, hc]
    by_cases ha : normAwb r = ""
    · simp [ha]
    · simp only [ha, if_neg, ite_false]
      by_cases hcc : c = c0
      · subst hcc
        simp [List.mem_insert_iff, ha]
        tauto
      · have : ¬(c0 = c) := fun he => hcc he.symm
        simp [hcc, this, ha]

/-- Membership in a category's AWB set after folding a whole group. -/
lemma mem_s_foldl :
    ∀ (g : List Record) (st : AggState) (c : Category) (a : String),
      a ∈ (g.foldl stepRecord st).s c ↔
        a ∈ st.s c ∨
          ∃ r ∈ g, (classify_cargo r).category = some c ∧ a = normAwb r ∧
            normAwb r ≠ "" := by
  intro g
  induction g with
  | nil => intro st c a; simp
  | cons r g ih =>
    intro st c a
    simp only [List.foldl_cons]
    rw [ih, mem_s_step]
    simp only [List.mem_cons]
    constructor
    · rintro ((h | h) | ⟨x, hx, hp⟩)
      · exact Or.inl h
      · exact Or.inr ⟨r, Or.inl rfl, h⟩
      · exact Or.inr ⟨x, Or.inr hx, hp⟩
    · rintro (h | ⟨x, (hx | hx), hp⟩)
      · exact Or.inl (Or.inl h)
      · subst hx; exact Or.inl (Or.inr hp)
      · exact Or.inr ⟨x, hx, hp⟩

/-- Aggregation preserves duplicate-freeness of every category AWB set. -/
lemma nodup_s_step (st : AggState) (r : Record)
    (hst : ∀ c, (st.s c).Nodup) : ∀ c, ((stepRecord st r).s c).Nodup := by
  intro c
  cases hc : (classify_cargo r).category with
  | none => simp only [stepRecord, hc]; exact hst c
  | some c0 =>
    simp only [stepRecord, hc]
    by_cases ha : normAwb r = ""
    · simp only [ha, ite_true, if_pos]; exact hst c
    · simp only [ha, ite_false, if_neg, not_false_iff]
      by_cases hcc : c = c0
      · subst hcc
        simp only [ite_true, if_pos]
        exact (hst c).insert
      · simp only [hcc, ite_false, if_neg, not_false_iff]
        exact hst c

/-- Every category AWB set of a folded group is duplicate-free. -/
lemma nodup_s_foldl :
    ∀ (g : List Record) (st : AggState),
      (∀ c, (st.s c).Nodup) → ∀ c, ((g.foldl stepRecord st).s c).Nodup := by
  intro g
  induction g with
  | nil => intro st hst; exact hst
  | cons r g ih =>
    intro st hst
    exact ih (stepRecord st r) (nodup_s_step st r hst)

/-- Every category AWB set of a group's aggregate state is duplicate-free. -/
lemma nodup_s_aggregateState (g : List Record) (c : Category) :
    ((aggregateState g).s c).Nodup :=
  nodup_s_foldl g emptyState (fun _ => List.nodup_nil) c

/-- Membership in a category's AWB set of a group's aggregate state. -/
lemma mem_s_aggregateState (g : List Record) (c : Category) (a : String) :
    a ∈ (aggregateState g).s c ↔
      ∃ r ∈ g, (classify_cargo r).category = some c ∧ a = normAwb r ∧
        normAwb r ≠ "" := by
  rw [aggregateState, mem_s_foldl]
  simp [emptyState]

/-- Membership in the non-mail union is membership in one of the five
non-mail category sets. -/
lemma mem_unionNonMail (st : AggState) (a : String) :
    a ∈ unionNonMail st ↔
      a ∈ st.s .GENCARGO ∨ a ∈ st.s .PERCOL ∨ a ∈ st.s .DG ∨
        a ∈ st.s .TRANSIT ∨ a ∈ st.s .COURIER := by
  simp only [unionNonMail, List.mem_union_iff]
  tauto

/-- Claim C2: for every flight group, `TOTAL WEIGHT` equals the sum of the
six per-category weight accumulators, and that sum equals the sum of the
normalized weights of all records of the group with non-zero normalized
weight — no record's weight is dropped or double-counted (weights are exact
rationals, so the equality is exact). -/
theorem c2_weight_conservation (g : List Record) :
    (aggregateGroup g).totalWeight =
      (aggregateGroup g).wGen + (aggregateGroup g).wPer +
      (aggregateGroup g).wDg + (aggregateGroup g).wTr +
      (aggregateGroup g).wMail + (aggregateGroup g).wCou ∧
    (aggregateGroup g).totalWeight =
      ((g.filter (fun r => decide (normWeight r ≠ 0))).map normWeight).sum := by
  constructor
  · rfl
  · have h : (aggregateGroup g).totalWeight = sumStW (aggregateState g) := rfl
    rw [h, aggregateState, sumStW_foldl]
    simp [sumStW, emptyState]

/-- Claim C4 counterexample: in the flight group `gEx4` the single AWB 800
has one COURIER line-item and one GENCARGO line-item; `AWB TOTAL` is 1 while
the five non-mail count accumulators sum to 2, so the claimed equality
fails. -/
theorem c4_counterexample_total :
    (aggregateGroup gEx4).awbTotal = 1 ∧
    (aggregateGroup gEx4).genCount + (aggregateGroup gEx4).colCount +
      (aggregateGroup gEx4).dgCount + (aggregateGroup gEx4).tnstCount +
      (aggregateGroup gEx4).couCount = 2 := by
  constructor <;> decide

/-- Claim C4 as amended: `AWB TOTAL` is the number of distinct non-blank
AWBs having at least one line-item whose resolved category is not
POSTAL_MAIL (the size of the duplicate-free union of the five non-mail
sets); it equals the sum of the five non-mail count accumulators only when
no AWB appears under two categories; and an AWB is in a count accumulator of
a category only if one of its line-items resolved to that category, so an
AWB all of whose line-items are POSTAL_MAIL is in no count accumulator and
not in the total, even with positive mail weight. -/
theorem c4_mail_exclusion_amended (g : List Record) (a : String) :
    (aggregateGroup g).awbTotal = (unionNonMail (aggregateState g)).length ∧
    (unionNonMail (aggregateState g)).Nodup ∧
    (a ∈ unionNonMail (aggregateState g) ↔
      ∃ r ∈ g, (∃ c, (classify_cargo r).category = some c ∧
        c ≠ Category.POMAIL) ∧ a = normAwb r ∧ normAwb r ≠ "") ∧
    (∀ c : Category, a ∈ (aggregateState g).s c ↔
      ∃ r ∈ g, (classify_cargo r).category = some c ∧ a = normAwb r ∧
        normAwb r ≠ "") := by
  refine ⟨rfl, ?_, ?_, fun c => mem_s_aggregateState g c a⟩
  · exact List.Nodup.union _ (nodup_s_aggregateState g .COURIER)
  · rw [mem_unionNonMail]
    simp only [mem_s_aggregateState]
    constructor
    · rintro (⟨r, hr, hc, hp⟩ | ⟨r, hr, hc, hp⟩ | ⟨r, hr, hc, hp⟩ |
        ⟨r, hr, hc, hp⟩ | ⟨r, hr, hc, hp⟩)
      · exact ⟨r, hr, ⟨.GENCARGO, hc, by simp⟩, hp⟩
      · exact ⟨r, hr, ⟨.PERCOL, hc, by simp⟩, hp⟩
      · exact ⟨r, hr, ⟨.DG, hc, by simp⟩, hp⟩
      · exact ⟨r, hr, ⟨.TRANSIT, hc, by simp⟩, hp⟩
      · exact ⟨r, hr, ⟨.COURIER, hc, by simp⟩, hp⟩
    · rintro ⟨r, hr, ⟨c, hc, hcm⟩, hp⟩
      cases c
      · exact Or.inr (Or.inr (Or.inr (Or.inl ⟨r, hr, hc, hp⟩)))
      · exact absurd rfl hcm
      · exact Or.inr (Or.inr (Or.inr (Or.inr ⟨r, hr, hc, hp⟩)))
      · exact Or.inr (Or.inl ⟨r, hr, hc, hp⟩)
      · exact Or.inr (Or.inr (Or.inl ⟨r, hr, hc, hp⟩))
      · exact Or.inl ⟨r, hr, hc, hp⟩

/-- Claim C5 counterexample: in the flight group `gEx5` the single AWB 700
has a COURIER line-item and a PER/COL line-item and is counted in the AWB
count accumulators of both categories for the same flight. -/
theorem c5_counterexample_exclusivity :
    "700" ∈ (aggregateState gEx5).s Category.COURIER ∧
    "700" ∈ (aggregateState gEx5).s Category.PERCOL ∧
    (aggregateGroup gEx5).couCount = 1 ∧
    (aggregateGroup gEx5).colCount = 1 := by
  refine ⟨by decide, by decide, by decide, by decide⟩

/-- Claim C5 as amended: within each category of a flight, an AWB is counted
at most once regardless of how many line-items carry it (the per-category
accumulators are sizes of duplicate-free sets whose members are exactly the
non-blank AWBs with a line-item resolving to that category); however, an
AWB whose line-items resolve to different categories is counted once in each
such category, so it is not restricted to a single category. -/
theorem c5_amended_per_category_once (g : List Record) (c : Category)
    (a : String) :
    ((aggregateState g).s c).Nodup ∧
    (a ∈ (aggregateState g).s c ↔
      ∃ r ∈ g, (classify_cargo r).category = some c ∧ a = normAwb r ∧
        normAwb r ≠ "") ∧
    (aggregateGroup g).genCount = ((aggregateState g).s .GENCARGO).length ∧
    (aggregateGroup g).colCount = ((aggregateState g).s .PERCOL).length ∧
    (aggregateGroup g).dgCount = ((aggregateState g).s .DG).length ∧
    (aggregateGroup g).tnstCount = ((aggregateState g).s .TRANSIT).length ∧
    (aggregateGroup g).couCount = ((aggregateState g).s .COURIER).length :=
  ⟨nodup_s_aggregateState g c, mem_s_aggregateState g c a,
   rfl, rfl, rfl, rfl, rfl⟩

/-- Claim C9 at the failing input: the weight normalization of
`src/in/transform.py` (`float(row['Weight'])`) has no value on the
non-numeric string "abc" — the modelled `ValueError` — while the sibling
normalization of `src/transform.py` (`pd.to_numeric(errors='coerce')
.fillna(0)`) degrades the same cell to 0, as the spec requires; on a missing
cell the in-variant does degrade to 0, and on numeric strings both agree. -/
theorem c9_weight_normalization :
    normWeightRawIn (some "abc") = none ∧
    finalWeightSafe (some "abc") = 0 ∧
    normWeightRawIn none = some 0 ∧
    finalWeightSafe none = 0 ∧
    (normWeightRawIn (some "12.5")).isSome = true ∧
    (normWeightRawIn (some "12")).isSome = true := by
  refine ⟨rfl, rfl, rfl, rfl, rfl, rfl⟩

end AirCargo
